import Mathlib

/-
  Verification development for the eMenus smart-tags repository.

  The repository ships the React frontend (src/lib/types.ts, src/lib/api.ts,
  src/pages/*.tsx, the standalone SmartTagBadge.tsx) together with a README
  describing the FastAPI backend (classification engine, urgency override,
  persistence, notifications).  The frontend sources are embedded directly;
  the backend services are absent from the snapshot, so they are modelled
  from the specification, with each such definition marked
  "Modelled from the spec:".
-/

/- ### Generic keyword-scanning machinery -/

/-- Scan a character list left to right; at the first position where some
keyword of `kws` is a prefix of the remaining text, return that keyword
(the first one of `kws` that matches there).  Earliest position wins. -/
def firstKeywordMatch (kws : List (List Char)) : List Char → Option (List Char)
  | [] => none
  | c :: rest =>
    match kws.find? (fun kw => kw.isPrefixOf (c :: rest)) with
    | some kw => some kw
    | none => firstKeywordMatch kws rest

/-- Boolean substring test: does `needle` occur anywhere in `hay`? -/
def containsSub (hay needle : List Char) : Bool :=
  (firstKeywordMatch [needle] hay).isSome

theorem isPrefixOf_nil_eq_false (a : Char) (l : List Char) :
    (a :: l).isPrefixOf ([] : List Char) = false := rfl

theorem firstKeywordMatch_some_spec (kws : List (List Char)) (hay : List Char)
    (kw : List Char) (h : firstKeywordMatch kws hay = some kw) :
    kw ∈ kws ∧ ∃ i, kw.isPrefixOf (hay.drop i) = true ∧
      ∀ j < i, ∀ k ∈ kws, k.isPrefixOf (hay.drop j) = false := by
  induction hay with
  | nil => simp [firstKeywordMatch] at h
  | cons c rest ih =>
    rcases hfind : kws.find? (fun kw => kw.isPrefixOf (c :: rest)) with _ | kw0
    · have hstep : firstKeywordMatch kws (c :: rest) = firstKeywordMatch kws rest := by
        rw [firstKeywordMatch, hfind]
      rw [hstep] at h
      obtain ⟨hmem, i, hi, hearlier⟩ := ih h
      refine ⟨hmem, i + 1, by simpa using hi, ?_⟩
      intro j hj k hk
      cases j with
      | zero =>
        simp only [List.drop_zero]
        have h2 := List.find?_eq_none.mp hfind k hk
        simp only [Bool.not_eq_true] at h2
        exact h2
      | succ j' =>
        have hj' : j' < i := by omega
        simpa using hearlier j' hj' k hk
    · have hstep : firstKeywordMatch kws (c :: rest) = some kw0 := by
        rw [firstKeywordMatch, hfind]
      rw [hstep] at h
      simp only [Option.some.injEq] at h
      subst h
      refine ⟨List.mem_of_find?_eq_some hfind, 0, ?_, ?_⟩
      · have := List.find?_some hfind
        simpa using this
      · intro j hj
        omega

theorem firstKeywordMatch_isSome_iff (kws : List (List Char)) (hay : List Char)
    (hne : ∀ k ∈ kws, k ≠ []) :
    (firstKeywordMatch kws hay).isSome = true ↔
      ∃ k ∈ kws, ∃ i, k.isPrefixOf (hay.drop i) = true := by
  induction hay with
  | nil =>
    simp only [firstKeywordMatch, Option.isSome_none]
    constructor
    · intro h
      exact absurd h (by simp)
    · rintro ⟨k, hk, i, hi⟩
      rcases hk0 : k with _ | ⟨a, l⟩
      · exact absurd hk0 (hne k hk)
      · rw [List.drop_nil] at hi
        rw [hk0] at hi
        rw [isPrefixOf_nil_eq_false] at hi
        exact absurd hi (by simp)
  | cons c rest ih =>
    rcases hfind : kws.find? (fun kw => kw.isPrefixOf (c :: rest)) with _ | kw0
    · have hstep : firstKeywordMatch kws (c :: rest) = firstKeywordMatch kws rest := by
        rw [firstKeywordMatch, hfind]
      rw [hstep, ih]
      constructor
      · rintro ⟨k, hk, i, hi⟩
        exact ⟨k, hk, i + 1, by simpa using hi⟩
      · rintro ⟨k, hk, i, hi⟩
        cases i with
        | zero =>
          rw [List.drop_zero] at hi
          have h2 := List.find?_eq_none.mp hfind k hk
          simp only [Bool.not_eq_true] at h2
          rw [h2] at hi
          exact absurd hi (by simp)
        | succ i' =>
          exact ⟨k, hk, i', by simpa using hi⟩
    · have hstep : firstKeywordMatch kws (c :: rest) = some kw0 := by
        rw [firstKeywordMatch, hfind]
      rw [hstep]
      simp only [Option.isSome_some, true_iff]
      refine ⟨kw0, List.mem_of_find?_eq_some hfind, 0, ?_⟩
      have := List.find?_some hfind
      simpa using this

theorem firstKeywordMatch_none_iff (kws : List (List Char)) (hay : List Char)
    (hne : ∀ k ∈ kws, k ≠ []) :
    firstKeywordMatch kws hay = none ↔
      ¬ ∃ k ∈ kws, ∃ i, k.isPrefixOf (hay.drop i) = true := by
  rw [← firstKeywordMatch_isSome_iff kws hay hne]
  cases firstKeywordMatch kws hay <;> simp

/- ### Tag vocabulary and result model

The frontend declares the closed tag vocabulary and sentiment enumeration in
src/lib/types.ts (`SmartTagName`, `SentimentLevel`); the README's CRM tag
table lists the same eight tags. -/

/-- The eight-tag vocabulary, embedded from the `SmartTagName` union type in
src/lib/types.ts (string spellings as in the source). -/
def VALID_TAGS : List String :=
  ["VIP", "Celeb", "frequent visitors", "Birthday", "Anniversary",
   "No shows", "Dietary restrictions", "allergies"]

/-- Sentiment enumeration, embedded from `SentimentLevel` in src/lib/types.ts.
The spec orders it Neutral, Positive, Negative, Urgent with Urgent the
distinguished override level. -/
inductive SentimentLevel where
  | Neutral
  | Positive
  | Negative
  | Urgent
deriving DecidableEq

/-- Rank of a sentiment in the spec's ordered enumeration
{Neutral, Positive, Negative, Urgent}; Urgent is the top level. -/
def sentRank : SentimentLevel → Nat
  | .Neutral => 0
  | .Positive => 1
  | .Negative => 2
  | .Urgent => 3

/-- Analysis result shape, embedded from `SmartTagPayload` in src/lib/types.ts
(tags, sentiment, confidence, summary, analyzed_at, optional urgent_reason).
Confidence is a rational standing for the JSON number. -/
structure AnalysisResult where
  tags : List String
  sentiment : SentimentLevel
  confidence : ℚ
  summary : String
  analyzed_at : String
  urgent_reason : Option String
deriving DecidableEq

/- ### Urgency override (backend service, modelled) -/

/-- Modelled from the spec: text normalization used by the rule-based
classifier and urgency override (case-insensitive matching); the backend
service file ai_tagging_service.py is absent from the snapshot. -/
def normalizeText (s : String) : String :=
  ⟨s.data.map Char.toLower⟩

/-- Modelled from the spec: the curated high-risk phrase list of the urgency
override (anaphylaxis, epipen, severe allergy, emergency, medical-alert
terms); ai_tagging_service.py is absent from the snapshot. -/
def URGENT_KEYWORDS : List String :=
  ["anaphylaxis", "epipen", "severe allergy", "emergency",
   "allergic reaction", "medical alert"]

/-- Modelled from the spec: the human-readable urgent reason naming the
matched phrase, in the style of the README example response. -/
def urgentReasonText (kw : String) : String :=
  "Detected urgent keyword: " ++ kw

/-- Modelled from the spec: the urgency override
`override(text, provisional) -> AnalysisResult`.  It scans the normalized
input text for the curated high-risk phrases, earliest position first; on a
match it forces sentiment to Urgent and sets urgent_reason to a statement
naming the matched phrase, regardless of the provisional result; otherwise
it returns the provisional result unchanged.  The backend file
ai_tagging_service.py is absent from the snapshot. -/
def overrideUrgency (text : String) (prov : AnalysisResult) : AnalysisResult :=
  match firstKeywordMatch (URGENT_KEYWORDS.map String.data) (normalizeText text).data with
  | some kw =>
      { prov with sentiment := .Urgent, urgent_reason := some (urgentReasonText ⟨kw⟩) }
  | none => prov

/-- The input text contains some phrase of the curated high-risk list
(after normalization): the trigger condition of the urgency override. -/
def textHasRisk (text : String) : Prop :=
  ∃ kw ∈ URGENT_KEYWORDS, ∃ i,
    kw.data.isPrefixOf ((normalizeText text).data.drop i) = true

/- ### Rule-based fallback classifier (backend service, modelled) -/

/-- Modelled from the spec: the curated per-tag keyword list of the
rule-based fallback classifier (substring matches, case-insensitive);
ai_tagging_service.py is absent from the snapshot.  Every produced tag is
drawn from the eight-tag vocabulary. -/
def FALLBACK_TAG_KEYWORDS : List (String × List String) :=
  [("VIP", ["vip"]),
   ("Celeb", ["celebrity", "celeb"]),
   ("frequent visitors", ["frequent", "regular"]),
   ("Birthday", ["birthday"]),
   ("Anniversary", ["anniversary"]),
   ("No shows", ["no show", "no-show"]),
   ("Dietary restrictions", ["vegetarian", "vegan", "gluten", "halal", "kosher", "dairy"]),
   ("allergies", ["allerg", "epipen", "anaphylaxis"])]

/-- Modelled from the spec: positive keyword heuristic of the fallback
sentiment rule. -/
def POSITIVE_KEYWORDS : List String :=
  ["thank", "love", "wonderful", "excited", "celebrate"]

/-- Modelled from the spec: negative keyword heuristic of the fallback
sentiment rule. -/
def NEGATIVE_KEYWORDS : List String :=
  ["disappointed", "complaint", "unhappy", "terrible", "awful"]

/-- Normalized concatenation of the two free-text inputs, the text the
rule-based classifier and override scan. -/
def combinedText (text dietary : String) : String :=
  normalizeText (text ++ " " ++ dietary)

/-- Does the negative keyword heuristic fire on the inputs? -/
def negHeuristic (text dietary : String) : Bool :=
  NEGATIVE_KEYWORDS.any (fun kw => containsSub (combinedText text dietary).data kw.data)

/-- Does the positive keyword heuristic fire on the inputs? -/
def posHeuristic (text dietary : String) : Bool :=
  POSITIVE_KEYWORDS.any (fun kw => containsSub (combinedText text dietary).data kw.data)

/-- Modelled from the spec: the deterministic rule-based fallback classifier.
Tags come from substring matches against the per-tag keyword list; sentiment
defaults to Neutral unless the positive/negative keyword heuristic fires;
confidence is fixed at the 0.55 baseline; urgent_reason is not set here
(only the override sets it).  ai_tagging_service.py is absent from the
snapshot. -/
def fallbackClassify (text dietary now : String) : AnalysisResult :=
  let hay := (combinedText text dietary).data
  { tags := (FALLBACK_TAG_KEYWORDS.filter
      (fun p => p.2.any (fun kw => containsSub hay kw.data))).map (fun p => p.1)
    sentiment :=
      if negHeuristic text dietary then .Negative
      else if posHeuristic text dietary then .Positive
      else .Neutral
    confidence := 0.55
    summary := "Rule-based analysis of reservation text."
    analyzed_at := now
    urgent_reason := none }

/- ### Provider-backed classifier sanitization (backend service, modelled) -/

/-- Modelled from the spec: the raw JSON-shaped answer of the external LLM
provider before sanitization (tags free-form, sentiment and confidence
possibly absent or invalid); ai_tagging_service.py is absent from the
snapshot. -/
structure RawAIResponse where
  tags : List String
  sentiment : Option String
  confidence : Option ℚ
  summary : String
deriving DecidableEq

/-- Modelled from the spec: sentiment coercion during sanitization; an
unparseable sentiment defaults to Neutral. -/
def parseSentiment : Option String → SentimentLevel
  | some "Positive" => .Positive
  | some "Negative" => .Negative
  | some "Urgent" => .Urgent
  | _ => .Neutral

/-- Modelled from the spec: confidence sanitization; a confidence that is
absent or outside [0,1] defaults to the mid-value 0.5. -/
def sanitizeConfidence : Option ℚ → ℚ
  | some c => if 0 ≤ c ∧ c ≤ 1 then c else 0.5
  | none => 0.5

/-- Modelled from the spec: bound on the sanitized summary length. -/
def SUMMARY_MAX : Nat := 500

/-- Modelled from the spec: sanitization of a successful provider response —
unknown tags are dropped, confidence is clamped into [0,1], sentiment is
coerced to a valid enum value, summary is truncated to a bounded length.
urgent_reason is not set here (only the override sets it).
ai_tagging_service.py is absent from the snapshot. -/
def sanitizeAIResponse (raw : RawAIResponse) (now : String) : AnalysisResult :=
  { tags := raw.tags.filter (fun t => decide (t ∈ VALID_TAGS))
    sentiment := parseSentiment raw.sentiment
    confidence := sanitizeConfidence raw.confidence
    summary := ⟨raw.summary.data.take SUMMARY_MAX⟩
    analyzed_at := now
    urgent_reason := none }

/- ### Classification engine and pipeline (backend service, modelled) -/

/-- Modelled from the spec: outcome of the provider-backed path after its
bounded retries — either a raw response or a failure (timeout, auth failure,
rate limiting, malformed payload, provider disabled). -/
inductive ProviderOutcome where
  | ok (raw : RawAIResponse)
  | failure
deriving DecidableEq

/-- Modelled from the spec: the classification engine
`classify(text, dietary_preferences) -> AnalysisResult`; a provider success
is sanitized, any provider failure transparently selects the rule-based
fallback, and no error propagates (the function is total). -/
def classify (outcome : ProviderOutcome) (text dietary now : String) : AnalysisResult :=
  match outcome with
  | .ok raw => sanitizeAIResponse raw now
  | .failure => fallbackClassify text dietary now

/-- Modelled from the spec: the analyze pipeline stage ordering — the
classification engine produces a provisional result, then the urgency
override inspects the raw input text (special request and dietary
preferences) and may overwrite sentiment and reason. -/
def analyzePipeline (outcome : ProviderOutcome) (text dietary now : String) : AnalysisResult :=
  overrideUrgency (text ++ " " ++ dietary) (classify outcome text dietary now)

/- ### Tenant-scoped persistence coordinator (backend service, modelled) -/

/-- Stored per-customer tag state, keyed by tenant id and customer id;
a customer with no profile yet holds the empty tag list. -/
abbrev TagStore := String → String → List String

/-- Modelled from the spec: the upsert merge of the persistence coordinator —
new tags are merged into the existing stored tag set (tags accumulate,
duplicates are not re-added); unit_of_work.py and customer_profile.py are
absent from the snapshot. -/
def mergeTags (old new : List String) : List String :=
  old ++ new.filter (fun t => decide (t ∉ old))

/-- Modelled from the spec: one serialized commit of the persistence
coordinator for `(tenant_id, customer_id)` — an atomic read-modify-write
that merges the new tags into that profile row and touches no other row;
unit_of_work.py is absent from the snapshot.  Per the spec the coordinator
serializes concurrent writers to the same row, so a pair of concurrent
commits executes as one of the two sequential orders of this function. -/
def commitTags (store : TagStore) (tenant customer : String)
    (newTags : List String) : TagStore :=
  fun t c =>
    if t = tenant ∧ c = customer then mergeTags (store tenant customer) newTags
    else store t c

/- ### Tag-to-category tables (embedded from the frontend sources) -/

/-- The eight-tag vocabulary as an enumeration, embedded from the
`SmartTagName` union type in src/lib/types.ts. -/
inductive SmartTagName where
  | VIP
  | Celeb
  | frequentVisitors
  | Birthday
  | Anniversary
  | noShows
  | dietaryRestrictions
  | allergies
deriving DecidableEq

/-- The four presentation categories, embedded from the `TagCategory` union
type in src/lib/types.ts (identical in the standalone SmartTagBadge.tsx). -/
inductive TagCategory where
  | milestone
  | health
  | status
  | behavioral
deriving DecidableEq

/-- Embedded from `TAG_CATEGORIES` in src/lib/types.ts (the shared types
module), entry for entry in source order. -/
def TAG_CATEGORIES : SmartTagName → TagCategory
  | .Birthday => .milestone
  | .Anniversary => .milestone
  | .dietaryRestrictions => .health
  | .allergies => .health
  | .VIP => .status
  | .Celeb => .status
  | .frequentVisitors => .status
  | .noShows => .behavioral

/-- Embedded from `TAG_CATEGORIES` in the standalone SmartTagBadge.tsx
component (frontend/src/components per the README architecture), entry for
entry in source order. -/
def TAG_CATEGORIES_badge : SmartTagName → TagCategory
  | .Birthday => .milestone
  | .Anniversary => .milestone
  | .dietaryRestrictions => .health
  | .allergies => .health
  | .VIP => .status
  | .Celeb => .status
  | .frequentVisitors => .status
  | .noShows => .behavioral

/- ### Analyze response shape (embedded from src/lib/types.ts) -/

/-- Field names of the `AnalyzeTagsResponse` interface in src/lib/types.ts,
in declaration order.  `customer_name` is the only optional field. -/
def analyzeTagsResponseFields : List String :=
  ["reservation_id", "tenant_id", "customer_name", "smart_tags",
   "notification_triggered"]

/-- The `AnalyzeTagsResponse` interface of src/lib/types.ts as a structure;
the optional `customer_name` becomes an `Option`. -/
structure AnalyzeTagsResponse where
  reservation_id : String
  tenant_id : String
  customer_name : Option String
  smart_tags : AnalysisResult
  notification_triggered : Bool

/- ### Analyze form submission guard (embedded from src/pages/AnalyzePage.tsx) -/

/-- JavaScript `String.prototype.trim`: strip leading and trailing
whitespace. -/
def jsTrim (s : String) : String :=
  ⟨((s.data.dropWhile Char.isWhitespace).reverse.dropWhile Char.isWhitespace).reverse⟩

/-- Embedded from `handleSubmit` in src/pages/AnalyzePage.tsx: the analyze
call proceeds unless both text fields are blank after trimming
(`if (!specialRequest.trim() && !dietaryPrefs.trim()) return;`); the submit
button is disabled under the same condition.  No other check gates the
submission — in particular no length check. -/
def analyzeInvoked (specialRequest dietaryPrefs : String) : Bool :=
  !(jsTrim specialRequest == "" && jsTrim dietaryPrefs == "")

/- ### Shared request helper (embedded from src/lib/api.ts) -/

/-- The response data the `request` helper inspects: `res.ok`,
`res.status` and the body text. -/
structure HttpResponse where
  ok : Bool
  status : Nat
  body : String

/-- Embedded from `request` in src/lib/api.ts: on a non-ok response it
throws an Error with message made of the status code and the body text
(template `API (status): (body)`); on an ok response it returns the parsed
JSON body.  The thrown Error is the `Except.error` branch; `parse` stands
for `res.json()`. -/
def jsRequest {α : Type} (parse : String → α) (res : HttpResponse) : Except String α :=
  if res.ok then Except.ok (parse res.body)
  else Except.error ("API " ++ toString res.status ++ ": " ++ res.body)

/- ### Helper lemmas -/

theorem string_data_append (a b : String) : (a ++ b).data = a.data ++ b.data := by
  cases a
  cases b
  rfl

theorem urgentReasonText_ne_empty (kw : String) : urgentReasonText kw ≠ "" := by
  have h2 : (urgentReasonText kw).data = "Detected urgent keyword: ".data ++ kw.data :=
    string_data_append _ _
  intro h
  rw [h] at h2
  have h0 : ("" : String).data = [] := rfl
  rw [h0] at h2
  have h3 := h2.symm
  rw [List.append_eq_nil] at h3
  exact absurd h3.1 (by decide)

theorem textHasRisk_iff (text : String) :
    textHasRisk text ↔
      (firstKeywordMatch (URGENT_KEYWORDS.map String.data)
        (normalizeText text).data).isSome = true := by
  rw [firstKeywordMatch_isSome_iff _ _ (by decide)]
  constructor
  · rintro ⟨kw, hkw, i, hi⟩
    exact ⟨kw.data, List.mem_map_of_mem _ hkw, i, hi⟩
  · rintro ⟨k, hk, i, hi⟩
    obtain ⟨kw, hkw, rfl⟩ := List.mem_map.mp hk
    exact ⟨kw, hkw, i, hi⟩

theorem classify_urgent_reason_none (outcome : ProviderOutcome) (text dietary now : String) :
    (classify outcome text dietary now).urgent_reason = none := by
  cases outcome <;> rfl

theorem fallback_sentiment_ne_urgent (text dietary now : String) :
    (fallbackClassify text dietary now).sentiment ≠ SentimentLevel.Urgent := by
  show (if negHeuristic text dietary then SentimentLevel.Negative
    else if posHeuristic text dietary then SentimentLevel.Positive
    else SentimentLevel.Neutral) ≠ SentimentLevel.Urgent
  split
  · decide
  · split
    · decide
    · decide

/- ### C1: the urgency override -/

/-- C1: for every input text and provisional result, if the text contains a
high-risk phrase the override returns the provisional result with sentiment
forced to Urgent and urgent_reason naming a matched phrase, the named phrase
being one matched at the earliest matching position; with no match the
provisional result is returned unchanged; and the override never lowers the
sentiment level. -/
theorem c1_urgency_override (text : String) (prov : AnalysisResult) :
    (textHasRisk text →
      ∃ kw ∈ URGENT_KEYWORDS,
        overrideUrgency text prov =
          { prov with sentiment := SentimentLevel.Urgent,
                      urgent_reason := some (urgentReasonText kw) } ∧
        ∃ i, kw.data.isPrefixOf ((normalizeText text).data.drop i) = true ∧
          ∀ j < i, ∀ k ∈ URGENT_KEYWORDS,
            k.data.isPrefixOf ((normalizeText text).data.drop j) = false) ∧
    (¬ textHasRisk text → overrideUrgency text prov = prov) ∧
    sentRank prov.sentiment ≤ sentRank (overrideUrgency text prov).sentiment := by
  refine ⟨?_, ?_, ?_⟩
  · intro hrisk
    have hsome := (textHasRisk_iff text).mp hrisk
    rcases hmatch : firstKeywordMatch (URGENT_KEYWORDS.map String.data)
        (normalizeText text).data with _ | kd
    · rw [hmatch] at hsome
      exact absurd hsome (by simp)
    · obtain ⟨hmem, i, hi, hearlier⟩ := firstKeywordMatch_some_spec _ _ _ hmatch
      obtain ⟨kw, hkw, rfl⟩ := List.mem_map.mp hmem
      refine ⟨kw, hkw, ?_, i, hi, ?_⟩
      · unfold overrideUrgency
        rw [hmatch]
      · intro j hj k hk
        exact hearlier j hj k.data (List.mem_map_of_mem _ hk)
  · intro hnone
    have h0 : firstKeywordMatch (URGENT_KEYWORDS.map String.data)
        (normalizeText text).data = none := by
      rcases hmatch : firstKeywordMatch (URGENT_KEYWORDS.map String.data)
          (normalizeText text).data with _ | kd
      · rfl
      · exfalso
        apply hnone
        rw [textHasRisk_iff, hmatch]
        rfl
    unfold overrideUrgency
    rw [h0]
  · rcases hmatch : firstKeywordMatch (URGENT_KEYWORDS.map String.data)
        (normalizeText text).data with _ | kd
    · have heq : overrideUrgency text prov = prov := by
        unfold overrideUrgency
        rw [hmatch]
      rw [heq]
    · have heq : (overrideUrgency text prov).sentiment = SentimentLevel.Urgent := by
        unfold overrideUrgency
        rw [hmatch]
      rw [heq]
      cases prov.sentiment <;> decide

/-- Concrete provisional result used by witnesses: the engine returned
Positive with high confidence. -/
def provW : AnalysisResult :=
  { tags := ["VIP"], sentiment := .Positive, confidence := 0.99,
    summary := "great guest", analyzed_at := "2026-02-10T12:00:00Z",
    urgent_reason := none }

/-- Witness for C1 at a concrete input containing "epipen": the override
forces Urgent over a Positive high-confidence provisional result. -/
theorem c1_urgency_override_witness :
    (overrideUrgency "bring an epipen please" provW).sentiment = SentimentLevel.Urgent := by
  obtain ⟨kw, hmem, heq, hrest⟩ :=
    (c1_urgency_override "bring an epipen please" provW).1 ⟨"epipen", by decide, 9, by decide⟩
  rw [heq]

/- ### C2: urgent_reason present iff sentiment is Urgent -/

/-- A provider success whose raw sentiment is the valid enum value Urgent,
on text with no high-risk phrase: sanitization keeps the sentiment and the
override does not fire, so nothing sets urgent_reason. -/
def rawUrgent : RawAIResponse :=
  { tags := [], sentiment := some "Urgent", confidence := some 0.9, summary := "ok" }

/-- Counterexample to C2 as stated: on the provider-success path the
sanitized sentiment can be Urgent while urgent_reason stays absent, because
only the override sets urgent_reason and it fires only on a high-risk
phrase. -/
theorem c2_counterexample :
    (analyzePipeline (ProviderOutcome.ok rawUrgent) "hi" "" "t0").sentiment =
        SentimentLevel.Urgent ∧
      (analyzePipeline (ProviderOutcome.ok rawUrgent) "hi" "" "t0").urgent_reason = none := by
  decide

/-- C2 (amended): urgent_reason is present and non-empty iff sentiment is
Urgent, on every code path except a provider success whose raw sentiment
already parses to Urgent on text with no high-risk phrase — i.e. on the
whole fallback path, whenever the override fires, and whenever the provider
did not itself report Urgent. -/
theorem c2_urgent_reason_invariant (outcome : ProviderOutcome) (text dietary now : String)
    (h : outcome = ProviderOutcome.failure ∨ textHasRisk (text ++ " " ++ dietary) ∨
      ∀ raw, outcome = ProviderOutcome.ok raw →
        parseSentiment raw.sentiment ≠ SentimentLevel.Urgent) :
    ((analyzePipeline outcome text dietary now).sentiment = SentimentLevel.Urgent ↔
      ∃ s, (analyzePipeline outcome text dietary now).urgent_reason = some s ∧ s ≠ "") := by
  unfold analyzePipeline overrideUrgency
  rcases hmatch : firstKeywordMatch (URGENT_KEYWORDS.map String.data)
      (normalizeText (text ++ " " ++ dietary)).data with _ | kd
  · show ((classify outcome text dietary now).sentiment = SentimentLevel.Urgent ↔
      ∃ s, (classify outcome text dietary now).urgent_reason = some s ∧ s ≠ "")
    have hne : (classify outcome text dietary now).sentiment ≠ SentimentLevel.Urgent := by
      rcases h with rfl | hrisk | hok
      · exact fallback_sentiment_ne_urgent text dietary now
      · exfalso
        have hsome := (textHasRisk_iff (text ++ " " ++ dietary)).mp hrisk
        rw [hmatch] at hsome
        exact absurd hsome (by simp)
      · cases houtcome : outcome with
        | failure => exact fallback_sentiment_ne_urgent text dietary now
        | ok raw => exact hok raw houtcome
    constructor
    · intro hs
      exact absurd hs hne
    · rintro ⟨s, hs, -⟩
      rw [classify_urgent_reason_none] at hs
      exact absurd hs (by simp)
  · exact ⟨fun _ => ⟨urgentReasonText ⟨kd⟩, rfl, urgentReasonText_ne_empty _⟩, fun _ => rfl⟩

/-- Witness for C2 (amended) on the fallback path with a high-risk phrase:
the invariant instantiates and forces Urgent from the non-empty reason. -/
theorem c2_urgent_reason_invariant_witness :
    (analyzePipeline ProviderOutcome.failure "need an epipen" "" "t0").sentiment =
      SentimentLevel.Urgent :=
  (c2_urgent_reason_invariant ProviderOutcome.failure "need an epipen" "" "t0"
      (Or.inl rfl)).mpr
    ⟨urgentReasonText "epipen", by decide, by decide⟩

/- ### C3: tags stay in the vocabulary, confidence stays in [0,1] -/

theorem override_tags_confidence (text : String) (r : AnalysisResult) :
    (overrideUrgency text r).tags = r.tags ∧
      (overrideUrgency text r).confidence = r.confidence := by
  unfold overrideUrgency
  rcases firstKeywordMatch (URGENT_KEYWORDS.map String.data)
      (normalizeText text).data with _ | kd
  · exact ⟨rfl, rfl⟩
  · exact ⟨rfl, rfl⟩

theorem fallback_tags_eq (text dietary now : String) :
    (fallbackClassify text dietary now).tags =
      (FALLBACK_TAG_KEYWORDS.filter (fun p => p.2.any (fun kw =>
        containsSub (combinedText text dietary).data kw.data))).map (fun p => p.1) := rfl

theorem classify_tags_valid (outcome : ProviderOutcome) (text dietary now : String) :
    ∀ t ∈ (classify outcome text dietary now).tags, t ∈ VALID_TAGS := by
  cases outcome with
  | ok raw =>
    intro t ht
    have ht2 : t ∈ raw.tags.filter (fun t => decide (t ∈ VALID_TAGS)) := ht
    rw [List.mem_filter] at ht2
    simpa using ht2.2
  | failure =>
    intro t ht
    rw [show (classify ProviderOutcome.failure text dietary now).tags =
      (fallbackClassify text dietary now).tags from rfl, fallback_tags_eq] at ht
    rw [List.mem_map] at ht
    obtain ⟨p, hp, rfl⟩ := ht
    rw [List.mem_filter] at hp
    have hall : ∀ q ∈ FALLBACK_TAG_KEYWORDS, q.1 ∈ VALID_TAGS := by decide
    exact hall p hp.1

theorem classify_confidence_bounds (outcome : ProviderOutcome) (text dietary now : String) :
    0 ≤ (classify outcome text dietary now).confidence ∧
      (classify outcome text dietary now).confidence ≤ 1 := by
  cases outcome with
  | ok raw =>
    show 0 ≤ sanitizeConfidence raw.confidence ∧ sanitizeConfidence raw.confidence ≤ 1
    rcases raw.confidence with _ | c
    · show (0 : ℚ) ≤ 0.5 ∧ (0.5 : ℚ) ≤ 1
      norm_num
    · show 0 ≤ (if 0 ≤ c ∧ c ≤ 1 then c else 0.5) ∧
        (if 0 ≤ c ∧ c ≤ 1 then c else 0.5) ≤ 1
      by_cases hc : 0 ≤ c ∧ c ≤ 1
      · rw [if_pos hc]
        exact hc
      · rw [if_neg hc]
        norm_num
  | failure =>
    show (0 : ℚ) ≤ 0.55 ∧ (0.55 : ℚ) ≤ 1
    norm_num

/-- C3: for every result the pipeline returns (provider success or failure,
override fired or not), the tags are a subset of the eight-tag vocabulary
and the confidence is a defined rational in [0,1]. -/
theorem c3_tags_vocabulary_confidence (outcome : ProviderOutcome) (text dietary now : String) :
    (∀ t ∈ (analyzePipeline outcome text dietary now).tags, t ∈ VALID_TAGS) ∧
    0 ≤ (analyzePipeline outcome text dietary now).confidence ∧
    (analyzePipeline outcome text dietary now).confidence ≤ 1 := by
  obtain ⟨htags, hconf⟩ :=
    override_tags_confidence (text ++ " " ++ dietary) (classify outcome text dietary now)
  unfold analyzePipeline
  rw [htags, hconf]
  exact ⟨classify_tags_valid outcome text dietary now,
    classify_confidence_bounds outcome text dietary now⟩

/- ### C4: provider failure falls back transparently -/

/-- C4: when the provider path fails, the analyze call does not fail — the
classification engine transparently returns the rule-based fallback result,
whose confidence is exactly 0.55, whose tags stay in the vocabulary, whose
urgent_reason is unset, and whose sentiment is Neutral unless the
positive/negative keyword heuristic fires. -/
theorem c4_provider_failure_fallback (text dietary now : String) :
    classify ProviderOutcome.failure text dietary now = fallbackClassify text dietary now ∧
    (fallbackClassify text dietary now).confidence = 0.55 ∧
    (∀ t ∈ (fallbackClassify text dietary now).tags, t ∈ VALID_TAGS) ∧
    (fallbackClassify text dietary now).urgent_reason = none ∧
    (negHeuristic text dietary = false → posHeuristic text dietary = false →
      (fallbackClassify text dietary now).sentiment = SentimentLevel.Neutral) := by
  refine ⟨rfl, rfl, ?_, rfl, ?_⟩
  · exact classify_tags_valid ProviderOutcome.failure text dietary now
  · intro hneg hpos
    show (if negHeuristic text dietary then SentimentLevel.Negative
      else if posHeuristic text dietary then SentimentLevel.Positive
      else SentimentLevel.Neutral) = SentimentLevel.Neutral
    rw [hneg, hpos]
    simp

/-- Witness for C4 at a concrete benign input: neither heuristic fires, so
the fallback is Neutral at the fixed 0.55 confidence. -/
theorem c4_provider_failure_fallback_witness :
    (fallbackClassify "quiet corner table please" "" "t0").sentiment =
        SentimentLevel.Neutral ∧
      (fallbackClassify "quiet corner table please" "" "t0").confidence = 0.55 :=
  ⟨(c4_provider_failure_fallback "quiet corner table please" "" "t0").2.2.2.2
      (by decide) (by decide),
   (c4_provider_failure_fallback "quiet corner table please" "" "t0").2.1⟩

/- ### C5: concurrent disjoint commits both persist -/

theorem mem_mergeTags (old new : List String) (x : String) :
    x ∈ mergeTags old new ↔ x ∈ old ∨ x ∈ new := by
  unfold mergeTags
  rw [List.mem_append, List.mem_filter]
  simp only [decide_eq_true_eq]
  constructor
  · rintro (h | ⟨h1, h2⟩)
    · exact Or.inl h
    · exact Or.inr h1
  · rintro (h | h)
    · exact Or.inl h
    · by_cases hx : x ∈ old
      · exact Or.inl hx
      · exact Or.inr ⟨h, hx⟩

theorem commitTags_self (store : TagStore) (tenant customer : String) (new : List String) :
    commitTags store tenant customer new tenant customer =
      mergeTags (store tenant customer) new := by
  unfold commitTags
  rw [if_pos ⟨rfl, rfl⟩]

theorem commitTags_other (store : TagStore) (tenant customer : String) (new : List String)
    (t c : String) (h : ¬(t = tenant ∧ c = customer)) :
    commitTags store tenant customer new t c = store t c := by
  unfold commitTags
  rw [if_neg h]

/-- C5: a pair of commits for the same `(tenant_id, customer_id)` with
disjoint new tag sets, executed in either serialization order (the spec
requires the coordinator to serialize writers to the same profile row),
leaves the stored tag set equal to the previously stored tags merged with
both calls' tags — no update is lost — and touches no other profile row. -/
theorem c5_concurrent_disjoint_union (store : TagStore) (tenant customer : String)
    (a b : List String) (_hdisj : ∀ x ∈ a, x ∉ b) :
    (∀ x, x ∈ commitTags (commitTags store tenant customer a) tenant customer b
        tenant customer ↔
        (x ∈ store tenant customer ∨ x ∈ a ∨ x ∈ b)) ∧
    (∀ x, x ∈ commitTags (commitTags store tenant customer b) tenant customer a
        tenant customer ↔
        (x ∈ store tenant customer ∨ x ∈ a ∨ x ∈ b)) ∧
    (∀ t c, ¬(t = tenant ∧ c = customer) →
        commitTags (commitTags store tenant customer a) tenant customer b t c =
          store t c) := by
  refine ⟨?_, ?_, ?_⟩
  · intro x
    rw [commitTags_self, commitTags_self, mem_mergeTags, mem_mergeTags]
    tauto
  · intro x
    rw [commitTags_self, commitTags_self, mem_mergeTags, mem_mergeTags]
    tauto
  · intro t c h
    rw [commitTags_other _ _ _ _ _ _ h, commitTags_other _ _ _ _ _ _ h]

/-- Concrete stored state used by the C5 witness. -/
def storeW : TagStore := fun _ _ => ["Celeb"]

/-- Witness for C5 at concrete disjoint tag sets: the first call's tag is
still present after the second call's commit. -/
theorem c5_concurrent_disjoint_union_witness :
    "VIP" ∈ commitTags (commitTags storeW "t1" "c1" ["VIP"]) "t1" "c1" ["Birthday"]
      "t1" "c1" :=
  ((c5_concurrent_disjoint_union storeW "t1" "c1" ["VIP"] ["Birthday"]
      (by decide)).1 "VIP").mpr (Or.inr (Or.inl (by decide)))

/- ### C6: the analyze response shape -/

/-- Counterexample to C6 as stated: the `AnalyzeTagsResponse` interface the
caller receives (src/lib/types.ts) declares no `customer_id` field at all. -/
theorem c6_counterexample : "customer_id" ∉ analyzeTagsResponseFields := by decide

/-- C6 (amended): the response shape is exactly {reservation_id, tenant_id,
customer_name (optional), smart_tags, notification_triggered}; it always
contains a tenant_id field, contains no customer_id field, and identifies
the customer only by the optional customer_name. -/
theorem c6_response_shape :
    analyzeTagsResponseFields =
      ["reservation_id", "tenant_id", "customer_name", "smart_tags",
        "notification_triggered"] ∧
    "tenant_id" ∈ analyzeTagsResponseFields ∧
    "reservation_id" ∈ analyzeTagsResponseFields ∧
    "customer_name" ∈ analyzeTagsResponseFields ∧
    "customer_id" ∉ analyzeTagsResponseFields := by
  decide

/- ### C7: the 2000-character limit is not enforced -/

/-- A special-request text of 2001 identical characters. -/
def longA : String := ⟨List.replicate 2001 'a'⟩

theorem dropWhile_whitespace_replicate (n : Nat) :
    (List.replicate n 'a').dropWhile Char.isWhitespace = List.replicate n 'a' := by
  cases n with
  | zero => rfl
  | succ m =>
    rw [List.replicate_succ]
    rw [List.dropWhile_cons_of_neg (by decide)]

theorem longA_length : longA.length = 2001 := by
  show (List.replicate 2001 'a').length = 2001
  rw [List.length_replicate]

theorem jsTrim_longA : jsTrim longA = longA := by
  show (⟨(((List.replicate 2001 'a').dropWhile Char.isWhitespace).reverse.dropWhile
    Char.isWhitespace).reverse⟩ : String) = longA
  rw [dropWhile_whitespace_replicate, List.reverse_replicate,
    dropWhile_whitespace_replicate, List.reverse_replicate]
  rfl

theorem longA_ne_empty : longA ≠ "" := by
  intro h
  have h2 := congrArg String.length h
  rw [longA_length] at h2
  exact absurd h2 (by decide)

/-- Counterexample to C7 as stated: a special-request text longer than 2000
characters passes the submit guard of AnalyzePage and is submitted to the
analyze operation (the textarea has no maxLength and handleSubmit checks
only blankness). -/
theorem c7_counterexample :
    2000 < longA.length ∧ analyzeInvoked longA "" = true := by
  constructor
  · rw [longA_length]
    decide
  · unfold analyzeInvoked
    rw [jsTrim_longA]
    have h1 : (longA == "") = false := by
      rw [beq_eq_false_iff_ne]
      exact longA_ne_empty
    rw [h1]
    rfl

/-- C7 (amended): the frontend displays a `/2000` character counter but does
not enforce the bound — an input of any length is submitted whenever its
trimmed special-request text is non-empty. -/
theorem c7_no_length_gate (sr dp : String) (_hlen : 2000 < sr.length)
    (hne : jsTrim sr ≠ "") : analyzeInvoked sr dp = true := by
  have h1 : (jsTrim sr == "") = false := by
    rw [beq_eq_false_iff_ne]
    exact hne
  unfold analyzeInvoked
  rw [h1]
  rfl

/-- Witness for C7 (amended) at the concrete 2001-character input. -/
theorem c7_no_length_gate_witness : analyzeInvoked longA "" = true :=
  c7_no_length_gate longA ""
    (by rw [longA_length]; decide)
    (by rw [jsTrim_longA]; exact longA_ne_empty)

/- ### C8: submission requires a non-blank text field -/

/-- C8: the analyze operation is never invoked when both text fields are
blank after trimming, and an invoked submission has at least one field
non-blank after trimming (handleSubmit guard of AnalyzePage). -/
theorem c8_empty_fields_guard (sr dp : String) :
    (jsTrim sr = "" → jsTrim dp = "" → analyzeInvoked sr dp = false) ∧
    (analyzeInvoked sr dp = true → ¬(jsTrim sr = "" ∧ jsTrim dp = "")) := by
  constructor
  · intro h1 h2
    simp [analyzeInvoked, h1, h2]
  · intro h hcontra
    obtain ⟨h1, h2⟩ := hcontra
    simp [analyzeInvoked, h1, h2] at h

/-- Witness for C8 at concrete blank fields (one of them whitespace-only):
the submission is blocked. -/
theorem c8_empty_fields_guard_witness : analyzeInvoked "" "  " = false :=
  (c8_empty_fields_guard "" "  ").1 (by decide) (by decide)

/- ### C9: the tag-to-category mapping -/

/-- C9: the tag-to-category mapping is a total function on the eight-tag
vocabulary assigning VIP, Celeb and frequent visitors to status, Birthday
and Anniversary to milestone, No shows to behavioral, Dietary restrictions
and allergies to health; and the two TAG_CATEGORIES tables (shared types
module and standalone badge component) agree on every tag. -/
theorem c9_tag_categories_total_and_equal :
    (∀ t, TAG_CATEGORIES t = TAG_CATEGORIES_badge t) ∧
    TAG_CATEGORIES .VIP = .status ∧
    TAG_CATEGORIES .Celeb = .status ∧
    TAG_CATEGORIES .frequentVisitors = .status ∧
    TAG_CATEGORIES .Birthday = .milestone ∧
    TAG_CATEGORIES .Anniversary = .milestone ∧
    TAG_CATEGORIES .noShows = .behavioral ∧
    TAG_CATEGORIES .dietaryRestrictions = .health ∧
    TAG_CATEGORIES .allergies = .health := by
  refine ⟨fun t => ?_, rfl, rfl, rfl, rfl, rfl, rfl, rfl, rfl⟩
  cases t <;> rfl

/- ### C10: the shared request helper -/

theorem isPrefixOf_self_append (l t : List Char) : l.isPrefixOf (l ++ t) = true := by
  induction l with
  | nil => simp
  | cons a l ih =>
    rw [List.cons_append, List.isPrefixOf_cons₂]
    simp [ih]

theorem isPrefixOf_self (l : List Char) : l.isPrefixOf l = true := by
  have h := isPrefixOf_self_append l []
  rw [List.append_nil] at h
  exact h

/-- C10: for every call through the shared request helper, a non-ok HTTP
response yields a thrown Error whose message contains the status code and
the response body, and never a value; an ok response yields the parsed
body.  A caller therefore never receives a result from a failed response. -/
theorem c10_request_helper {α : Type} (parse : String → α) (res : HttpResponse) :
    (res.ok = false →
      jsRequest parse res =
        Except.error ("API " ++ toString res.status ++ ": " ++ res.body) ∧
      (∃ i, (toString res.status).data.isPrefixOf
        (("API " ++ toString res.status ++ ": " ++ res.body).data.drop i) = true) ∧
      (∃ i, res.body.data.isPrefixOf
        (("API " ++ toString res.status ++ ": " ++ res.body).data.drop i) = true) ∧
      ∀ v, jsRequest parse res ≠ Except.ok v) ∧
    (res.ok = true → jsRequest parse res = Except.ok (parse res.body)) := by
  constructor
  · intro hok
    have herr : jsRequest parse res =
        Except.error ("API " ++ toString res.status ++ ": " ++ res.body) := by
      unfold jsRequest
      rw [hok, if_neg (by decide : ¬ ((false : Bool) = true))]
    refine ⟨herr, ?_, ?_, ?_⟩
    · have hmsg : ("API " ++ toString res.status ++ ": " ++ res.body).data =
          "API ".data ++ ((toString res.status).data ++ (": ".data ++ res.body.data)) := by
        rw [string_data_append, string_data_append, string_data_append,
          List.append_assoc, List.append_assoc]
      refine ⟨4, ?_⟩
      rw [hmsg]
      have h4 : ("API ".data).length = 4 := rfl
      rw [← h4, List.drop_left]
      exact isPrefixOf_self_append _ _
    · have hmsg2 : ("API " ++ toString res.status ++ ": " ++ res.body).data =
          ("API " ++ toString res.status ++ ": ").data ++ res.body.data :=
        string_data_append _ _
      refine ⟨("API " ++ toString res.status ++ ": ").data.length, ?_⟩
      rw [hmsg2, List.drop_left]
      exact isPrefixOf_self _
    · intro v hv
      rw [herr] at hv
      exact Except.noConfusion hv
  · intro hok
    unfold jsRequest
    rw [hok, if_pos rfl]

/-- Witness for C10 at a concrete failed response: the helper returns the
thrown-Error branch with the templated message. -/
theorem c10_request_helper_witness :
    jsRequest (fun s => s) ⟨false, 404, "not found"⟩ =
      Except.error ("API " ++ toString (404 : Nat) ++ ": " ++ "not found") :=
  ((c10_request_helper (fun s => s) ⟨false, 404, "not found"⟩).1 rfl).1
